import Mathlib

/-!
Shallow embedding of the resilient interaction layer of Zeatop/AutomaticBuy
(`websites/common/base_page.py` and `websites/KingJouet/pages/checkout_page.py`).

The external browser-automation engine (Playwright) is modelled by an oracle
`Engine` that fixes, for each invocation of a primitive, its outcome.  Each
method of `BasePage` is embedded as a function threading an explicit state
`St` that records how many times each primitive was invoked, the diagnostic
artifacts (screenshot labels) produced, and the log lines emitted at each
level.  Exceptions are modelled by `Except Exc`.

Durations (timeouts, backoff sleeps) have no observable effect in the model
beyond loop structure; `time.sleep` calls are noted in comments.  Strings are
modelled with Lean `String`; Python `in`, `startswith`, `lower` and
`replace(c, d)` are reimplemented below on ASCII (sufficient for every string
the repository uses).
-/

/-- Python string primitive: does `hay` start with `needle`? (char lists). -/
def startsWithL : List Char → List Char → Bool
  | _, [] => true
  | [], _ :: _ => false
  | c :: cs, d :: ds => c = d && startsWithL cs ds

/-- Python `needle in hay` on char lists: `needle` occurs contiguously in `hay`. -/
def hasSubL (needle : List Char) : List Char → Bool
  | [] => startsWithL [] needle
  | c :: cs => startsWithL (c :: cs) needle || hasSubL needle cs

/-- Python `needle in hay` for strings. -/
def pyIn (needle hay : String) : Bool := hasSubL needle.data hay.data

/-- Python `s.startswith(pre)`. -/
def pyStartsWith (s pre : String) : Bool := startsWithL s.data pre.data

/-- Python `c.lower()` for a single character (ASCII; every secret-marker
string in the repository is ASCII). -/
def pyLowerChar (c : Char) : Char :=
  if 'A' ≤ c ∧ c ≤ 'Z' then Char.ofNat (c.toNat + 32) else c

/-- Python `s.lower()` (ASCII). -/
def pyLower (s : String) : String := String.mk (s.data.map pyLowerChar)

/-- Python `selector.replace(':', '_')` as used when forming screenshot labels. -/
def pyReplaceColon (s : String) : String :=
  String.mk (s.data.map (fun c => if c = ':' then '_' else c))

/-- Exceptions of the model.  `raised msg cause` is a Python
`Exception(msg)` raised `from cause` (every `raise Exception(...)` in
`base_page.py` carries a cause); `pwTimeout` is Playwright's
`TimeoutError`; `engineErr` is an arbitrary failure of an element-level
primitive; `screenshotErr` a failure of `page.screenshot`; `typeErr` is the
`TypeError` from `raise None`. -/
inductive Exc where
  | pwTimeout : Exc
  | raised : String → Exc → Exc
  | engineErr : Nat → Exc
  | screenshotErr : Exc
  | typeErr : Exc
deriving DecidableEq, Repr

/-- Message carried by an exception (Python `str(e)`, abstracted). -/
def Exc.msg : Exc → String
  | .pwTimeout => "Timeout"
  | .raised m _ => m
  | .engineErr n => "engine error " ++ toString n
  | .screenshotErr => "screenshot error"
  | .typeErr => "exceptions must derive from BaseException"

/-- Oracle for the external browser-automation engine: outcome of the k-th
invocation of each primitive.  `resolve k` is whether the k-th
`page.wait_for_selector` call finds the element before its timeout; `act k`
is the outcome of the k-th element-level action (scroll-and-click, fill,
select_option); `nav k` is whether the k-th navigation-level wait
(`goto` / `wait_for_load_state` / `wait_for_url`) finishes before its
timeout, and `newUrl k` the page url after it; `vis k` is the k-th
`page.is_visible` answer; `text k` / `attr k` the k-th
`text_content()` / `get_attribute()` answer (`none` = Python `None`);
`queryLen` the number of handles returned by `query_selector_all`;
`ts` the timestamp string `_get_timestamp()` returns. -/
structure Engine where
  resolve : Nat → Bool
  act : Nat → Except Exc Unit
  nav : Nat → Bool
  newUrl : Nat → String
  vis : Nat → Bool
  text : Nat → Option String
  attr : Nat → Option String
  queryLen : Nat
  ts : String

/-- Observable state threaded through every embedded method: counters of
primitive invocations, the page url, the diagnostic artifacts produced
(screenshot labels, in order), and the log lines per level. -/
structure St where
  resolveCalls : Nat
  actCalls : Nat
  navCalls : Nat
  visCalls : Nat
  url : String
  artifacts : List String
  debugs : List String
  infos : List String
  warns : List String
  errlogs : List String
deriving DecidableEq, Repr

/-- Initial state for a page whose current url is `u`. -/
def St.init (u : String) : St :=
  { resolveCalls := 0, actCalls := 0, navCalls := 0, visCalls := 0, url := u
    artifacts := [], debugs := [], infos := [], warns := [], errlogs := [] }

def logDebug (m : String) (s : St) : St := { s with debugs := s.debugs ++ [m] }

def logInfo (m : String) (s : St) : St := { s with infos := s.infos ++ [m] }

def logWarn (m : String) (s : St) : St := { s with warns := s.warns ++ [m] }

def logErr (m : String) (s : St) : St := { s with errlogs := s.errlogs ++ [m] }

/-- `BasePage.take_screenshot` as invoked from the other methods: logs and
records one artifact under the given label.  The underlying
`page.screenshot` is assumed to succeed on these paths; its failure mode is
modelled separately by `takeScreenshotM` below. -/
def shoot (label : String) (s : St) : St :=
  { s with infos := s.infos ++ ["Capture ecran prise: " ++ label],
           artifacts := s.artifacts ++ [label] }

/-- `BasePage.wait_for_selector(selector, timeout)` (base_page.py lines 55-75):
log, invoke the engine's `page.wait_for_selector`; on timeout log an error,
take a screenshot labeled `element_not_found_` + the selector with `:`
replaced by `_`, and raise `Exception("Élément non trouvé: …") from e`.
The returned handle is modelled by `Unit`. -/
def waitForSelectorM (eng : Engine) (selector : String) (s : St) :
    Except Exc Unit × St :=
  let s := logDebug ("Attente du sélecteur: " ++ selector) s
  let k := s.resolveCalls
  let s := { s with resolveCalls := k + 1 }
  if eng.resolve k then (Except.ok (), s)
  else
    let s := logErr ("Élément non trouvé: " ++ selector) s
    let s := shoot ("element_not_found_" ++ pyReplaceColon selector) s
    (Except.error (Exc.raised ("Élément non trouvé: " ++ selector) Exc.pwTimeout), s)

/-- The body of one retry attempt of `click` / `fill` / `select_option`:
resolve the locator via `wait_for_selector`, then perform the element-level
primitive (for `click`: `scroll_into_view_if_needed`, `time.sleep(0.5)` and
`element.click(force=force)`, merged here into the single engine action
`eng.act`; for `fill`: `element.fill(value)`; for `select_option`:
`element.select_option(...)`). -/
def resolveThenAct (eng : Engine) (selector : String) (s : St) :
    Except Exc Unit × St :=
  match waitForSelectorM eng selector s with
  | (Except.error e, s) => (Except.error e, s)
  | (Except.ok _, s) =>
    let k := s.actCalls
    let s := { s with actCalls := k + 1 }
    (eng.act k, s)

/-- The shared retry scaffold of `click` (lines 103-125), `fill` (139-150)
and `select_option` (163-174): `for attempt in range(retry_count)`, try the
body; on success return; on exception log a warning (`warnPre` + selector +
attempt counter + `str(e)`); if attempts remain, `time.sleep` a random
backoff and retry, else take a screenshot labeled `shotPre` + sanitized
selector and raise `Exception(failMsg) from e`.  `remaining` counts the
attempts still allowed; it starts at `retry_count`. -/
def attemptLoop (eng : Engine) (selector warnPre shotPre failMsg : String)
    (retry_count : Nat) : Nat → St → Except Exc Unit × St
  | 0, s => (Except.ok (), s)
  | remaining + 1, s =>
    match resolveThenAct eng selector s with
    | (Except.ok _, s) => (Except.ok (), s)
    | (Except.error e, s) =>
      let attempt := retry_count - (remaining + 1)
      let s := logWarn (warnPre ++ selector ++ " (tentative " ++
        toString (attempt + 1) ++ "/" ++ toString retry_count ++ "): " ++ e.msg) s
      if remaining = 0 then
        let s := shoot (shotPre ++ pyReplaceColon selector) s
        (Except.error (Exc.raised failMsg e), s)
      else
        attemptLoop eng selector warnPre shotPre failMsg retry_count remaining s

/-- `BasePage.click(selector, force, retry_count)` (lines 92-125). -/
def clickM (eng : Engine) (selector : String) (retry_count : Nat) (s : St) :
    Except Exc Unit × St :=
  let s := logDebug ("Clic sur l'élément: " ++ selector) s
  attemptLoop eng selector "Échec du clic sur " "click_failed_"
    ("Impossible de cliquer sur l'élément: " ++ selector ++ " après " ++
      toString retry_count ++ " tentatives") retry_count retry_count s

/-- The debug line `fill` emits (line 136-137): the value is replaced by a
same-length `'*'` mask when the lowercased selector contains `password`. -/
def maskedValue (selector value : String) : String :=
  if pyIn "password" (pyLower selector) then
    String.mk (List.replicate value.length '*')
  else value

/-- The full debug message logged by `fill`. -/
def fillLogMsg (selector value : String) : String :=
  "Remplissage du champ " ++ selector ++ " avec la valeur: " ++
    maskedValue selector value

/-- `BasePage.fill(selector, value, retry_count)` (lines 127-150). -/
def fillM (eng : Engine) (selector value : String) (retry_count : Nat) (s : St) :
    Except Exc Unit × St :=
  let s := logDebug (fillLogMsg selector value) s
  attemptLoop eng selector "Échec du remplissage de " "fill_failed_"
    ("Impossible de remplir le champ: " ++ selector ++ " après " ++
      toString retry_count ++ " tentatives") retry_count retry_count s

/-- `BasePage.select_option(selector, value, retry_count)` (lines 152-174);
`value` is modelled as the single-value case. -/
def selectOptionM (eng : Engine) (selector value : String) (retry_count : Nat)
    (s : St) : Except Exc Unit × St :=
  let s := logDebug ("Sélection de l'option " ++ value ++ " dans " ++ selector) s
  attemptLoop eng selector "Échec de la sélection dans " "select_failed_"
    ("Impossible de sélectionner l'option dans: " ++ selector ++ " après " ++
      toString retry_count ++ " tentatives") retry_count retry_count s

/-- `full_url` computed by `navigate` (line 45). -/
def fullUrl (base_url url : String) : String :=
  if pyStartsWith url "http://" || pyStartsWith url "https://" then url
  else base_url ++ url

/-- `BasePage.navigate(url, wait_until)` (lines 37-53): `page.goto`; on
Playwright timeout, log a warning, take a screenshot labeled
`navigation_timeout_` + timestamp, and return normally. -/
def navigateM (eng : Engine) (base_url url : String) (s : St) :
    Except Exc Unit × St :=
  let fu := fullUrl base_url url
  let s := logInfo ("Navigation vers: " ++ fu) s
  let k := s.navCalls
  let s := { s with navCalls := k + 1, url := eng.newUrl k }
  if eng.nav k then (Except.ok (), s)
  else
    let s := logWarn ("Timeout lors de la navigation vers " ++ fu ++
      ". Capture d'écran prise.") s
    let s := shoot ("navigation_timeout_" ++ eng.ts) s
    (Except.ok (), s)

/-- `BasePage.wait_for_navigation(timeout, wait_until)` (lines 77-90):
`page.wait_for_load_state`; on timeout log a warning, screenshot labeled
`navigation_wait_timeout_` + timestamp, return normally. -/
def waitForNavigationM (eng : Engine) (waitUntilEvt : String) (s : St) :
    Except Exc Unit × St :=
  let s := logDebug "Attente de la fin de la navigation" s
  let k := s.navCalls
  let s := { s with navCalls := k + 1, url := eng.newUrl k }
  if eng.nav k then (Except.ok (), s)
  else
    let s := logWarn ("Timeout en attendant la navigation (" ++ waitUntilEvt ++ ")") s
    let s := shoot ("navigation_wait_timeout_" ++ eng.ts) s
    (Except.ok (), s)

/-- `BasePage.wait_for_url(url_pattern, timeout)` (lines 272-286):
`page.wait_for_url`; on timeout log a warning naming the current url,
screenshot labeled `url_wait_timeout_` + timestamp, return normally. -/
def waitForUrlM (eng : Engine) (url_pattern : String) (s : St) :
    Except Exc Unit × St :=
  let s := logDebug ("Attente de l'URL correspondant à: " ++ url_pattern) s
  let k := s.navCalls
  let s := { s with navCalls := k + 1 }
  if eng.nav k then (Except.ok (), s)
  else
    let s := logWarn ("Timeout en attendant l'URL " ++ url_pattern ++
      ", URL actuelle: " ++ s.url) s
    let s := shoot ("url_wait_timeout_" ++ eng.ts) s
    (Except.ok (), s)

/-- `BasePage.is_visible(selector, timeout)` (lines 176-190). -/
def isVisibleM (eng : Engine) (s : St) : Bool × St :=
  let k := s.visCalls
  (eng.vis k, { s with visCalls := k + 1 })

/-- Number of iterations of the `wait_until` loop (lines 208-211): checks
happen at times `0, interval, 2*interval, …` ms while the elapsed time is
below `timeout` ms, so `⌈timeout / interval⌉` checks for `interval > 0`. -/
def numChecks (timeout interval : Nat) : Nat := (timeout + interval - 1) / interval

/-- The polling loop of `wait_until`: evaluate the predicate at indices
`k, k+1, …` for at most `fuel` iterations; return the result together with
the number of predicate evaluations performed. -/
def waitUntilAux (cond : Nat → Bool) : Nat → Nat → Bool × Nat
  | 0, _ => (false, 0)
  | fuel + 1, k =>
    if cond k then (true, 1)
    else
      let r := waitUntilAux cond fuel (k + 1)
      (r.1, r.2 + 1)

/-- `BasePage.wait_until(condition, timeout, interval)` (lines 192-214):
poll the predicate until it holds or the timeout elapses; on timeout log a
warning and return `False`; never raises, never screenshots.  Time is
idealized: each iteration advances by exactly `interval` ms. -/
def waitUntilM (cond : Nat → Bool) (timeout interval : Nat) (s : St) :
    Except Exc Bool × St :=
  let s := logDebug "Attente d'une condition personnalisée" s
  let r := waitUntilAux cond (numChecks timeout interval) 0
  if r.1 then (Except.ok true, s)
  else (Except.ok false,
        logWarn "Timeout en attendant qu'une condition soit remplie" s)

/-- `BasePage.take_screenshot(name)` called directly (lines 216-233), with
the failability of the underlying `page.screenshot` primitive made
explicit: the info line is logged first, then the primitive runs; the
method body has no exception handler, so a primitive failure propagates to
the caller and no artifact is recorded. -/
def takeScreenshotM (shotOk : Bool) (ts : String) (name : Option String)
    (s : St) : Except Exc String × St :=
  let nm := match name with
    | some n => n
    | none => "screenshot_" ++ ts
  let filename := nm ++ "_" ++ ts ++ ".png"
  let path := "SCREENSHOTS_DIR/" ++ filename
  let s := logInfo ("Capture d'écran prise: " ++ path) s
  if shotOk then (Except.ok path, { s with artifacts := s.artifacts ++ [nm] })
  else (Except.error Exc.screenshotErr, s)

/-- `BasePage.get_text(selector, default)` (lines 235-251): resolve via
`wait_for_selector`, return `element.text_content() or default`; any
exception is caught, a warning logged, and the default returned. -/
def getTextM (eng : Engine) (selector dflt : String) (s : St) :
    Except Exc String × St :=
  match waitForSelectorM eng selector s with
  | (Except.error e, s) =>
    (Except.ok dflt,
     logWarn ("Impossible de récupérer le texte de " ++ selector ++ ": " ++ e.msg) s)
  | (Except.ok _, s) =>
    let k := s.actCalls
    let s := { s with actCalls := k + 1 }
    match eng.text k with
    | none => (Except.ok dflt, s)
    | some t => if t = "" then (Except.ok dflt, s) else (Except.ok t, s)

/-- `BasePage.get_attribute(selector, attribute, default)` (lines 253-270):
same shape as `get_text` with `element.get_attribute(attribute)`. -/
def getAttributeM (eng : Engine) (selector attrName dflt : String) (s : St) :
    Except Exc String × St :=
  match waitForSelectorM eng selector s with
  | (Except.error e, s) =>
    (Except.ok dflt,
     logWarn ("Impossible de récupérer l'attribut " ++ attrName ++ " de " ++
       selector ++ ": " ++ e.msg) s)
  | (Except.ok _, s) =>
    let k := s.actCalls
    let s := { s with actCalls := k + 1 }
    match eng.attr k with
    | none => (Except.ok dflt, s)
    | some v => if v = "" then (Except.ok dflt, s) else (Except.ok v, s)

/-- The loop of `BasePage.retry_on_exception` (lines 313-326): try the
operation for each attempt index; on success return its value; on exception
remember it and log a warning; when the attempts are exhausted, log an
error and re-raise the remembered exception (re-raising the initial `None`
is Python's `TypeError`).  `op i` is the outcome of the operation on
attempt `i`; `total` is the original `retry_count`. -/
def retryAux (op : Nat → Except Exc Unit) (fname : String) (total : Nat) :
    Nat → Nat → Option Exc → St → Except Exc Unit × St
  | 0, _, last, s =>
    let s := logErr ("Échec complet de " ++ fname ++ " après " ++
      toString total ++ " tentatives") s
    (Except.error (match last with | some e => e | none => Exc.typeErr), s)
  | remaining + 1, attempt, _, s =>
    match op attempt with
    | Except.ok a => (Except.ok a, s)
    | Except.error e =>
      let s := logWarn ("Échec de " ++ fname ++ " (tentative " ++
        toString (attempt + 1) ++ "/" ++ toString total ++ "): " ++ e.msg) s
      retryAux op fname total remaining (attempt + 1) (some e) s

/-- `BasePage.retry_on_exception(func, *args, retry_count, **kwargs)`
(lines 297-326).  The operation's result type is modelled as `Unit`; its
identity-relevant part is the exception it raises. -/
def retryOnExceptionM (op : Nat → Except Exc Unit) (fname : String)
    (retry_count : Nat) (s : St) : Except Exc Unit × St :=
  retryAux op fname retry_count retry_count 0 none s

/-- `RETRY_COUNT` from `config/settings.py` (line 22). -/
def RETRY_COUNT : Nat := 3

/-- The checkout selectors used by `CheckoutPage`
(`websites/KingJouet/config.py`). -/
def SEL_delivery_options : String := ".relative.w-fulls"

def SEL_proceed_to_checkout : String := "#btn_confirmation_pc"

def SEL_card_owner : String := "#cardHolderName"

def SEL_card_number : String := "#encryptedCardNumber"

def SEL_card_expiration : String := "#encryptedExpiryDate"

def SEL_card_security_code : String := "#encryptedSecurityCode"

def SEL_place_order_button : String := "#btn_confirmation"

/-- `CheckoutPage._determine_current_step` (checkout_page.py lines 24-41):
classify the current url by the first matching fragment of the `if/elif`
chain, `"unknown"` when none matches. -/
def determineCurrentStep (url : String) : String :=
  if pyIn "identification" url then "identification"
  else if pyIn "livraison" url then "livraison"
  else if pyIn "paiement" url then "paiement"
  else if pyIn "confirmation" url then "confirmation"
  else "unknown"

/-- The per-state location fragments in the spec's fixed order
Identification, Delivery, Payment, Confirmation. -/
def stepFragments : List String := ["identification", "livraison", "paiement", "confirmation"]

/-- Modelled from the spec's words (section 4.6): return the first fragment
of the list occurring in the location, `"unknown"` when none occurs.  Used
only to compare with `determineCurrentStep`. -/
def firstMatchingStep : List String → String → String
  | [], _ => "unknown"
  | f :: fs, url => if pyIn f url then f else firstMatchingStep fs url

/-- `CheckoutPage.select_delivery_option(option_index)` (lines 43-86):
guard on `current_step == "livraison"`; then `query_selector_all`, bounds
check, click the option handle (an element-level action), click the proceed
button, wait for navigation, re-derive the step and report whether it is
now `"paiement"`.  Any exception is caught: error log, screenshot
`select_delivery_option_error`, result `False`.  Returns the boolean result
and the updated `current_step`. -/
def selectDeliveryOptionM (eng : Engine) (current_step : String)
    (option_index : Nat) (s : St) : (Bool × String) × St :=
  let s := logInfo ("Sélection de l'option de livraison " ++ toString option_index) s
  if current_step ≠ "livraison" then
    ((false, current_step),
     logWarn ("Étape actuelle (" ++ current_step ++ ") n'est pas 'livraison'") s)
  else if option_index ≥ eng.queryLen then
    ((false, current_step),
     logErr ("Index d'option " ++ toString option_index ++ " hors limites") s)
  else
    let k := s.actCalls
    let s := { s with actCalls := k + 1 }
    match eng.act k with
    | Except.error e =>
      let s := logErr ("Erreur lors de la sélection de l'option de livraison: " ++ e.msg) s
      ((false, current_step), shoot "select_delivery_option_error" s)
    | Except.ok _ =>
      match clickM eng SEL_proceed_to_checkout RETRY_COUNT s with
      | (Except.error e, s) =>
        let s := logErr ("Erreur lors de la sélection de l'option de livraison: " ++ e.msg) s
        ((false, current_step), shoot "select_delivery_option_error" s)
      | (Except.ok _, s) =>
        let (_, s) := waitForNavigationM eng "networkidle" s
        let ns := determineCurrentStep s.url
        ((ns = "paiement", ns), s)

/-- `CheckoutPage.fill_payment_info(card_owner, card_number, expiry_date,
security_code)` (lines 88-130): guard on `current_step == "paiement"`; then
fill the four payment fields in order; any exception is caught: error log,
screenshot `fill_payment_info_error`, result `False`. -/
def fillPaymentInfoM (eng : Engine) (current_step : String)
    (card_owner card_number expiry_date security_code : String) (s : St) :
    (Bool × String) × St :=
  let s := logInfo ("Remplissage des informations de paiement pour " ++ card_owner) s
  if current_step ≠ "paiement" then
    ((false, current_step),
     logWarn ("Étape actuelle (" ++ current_step ++ ") n'est pas 'paiement'") s)
  else
    match fillM eng SEL_card_owner card_owner RETRY_COUNT s with
    | (Except.error e, s) =>
      let s := logErr ("Erreur lors du remplissage des informations de paiement: " ++ e.msg) s
      ((false, current_step), shoot "fill_payment_info_error" s)
    | (Except.ok _, s) =>
      match fillM eng SEL_card_number card_number RETRY_COUNT s with
      | (Except.error e, s) =>
        let s := logErr ("Erreur lors du remplissage des informations de paiement: " ++ e.msg) s
        ((false, current_step), shoot "fill_payment_info_error" s)
      | (Except.ok _, s) =>
        match fillM eng SEL_card_expiration expiry_date RETRY_COUNT s with
        | (Except.error e, s) =>
          let s := logErr ("Erreur lors du remplissage des informations de paiement: " ++ e.msg) s
          ((false, current_step), shoot "fill_payment_info_error" s)
        | (Except.ok _, s) =>
          match fillM eng SEL_card_security_code security_code RETRY_COUNT s with
          | (Except.error e, s) =>
            let s := logErr ("Erreur lors du remplissage des informations de paiement: " ++ e.msg) s
            ((false, current_step), shoot "fill_payment_info_error" s)
          | (Except.ok _, s) => ((true, current_step), s)

/-- `CheckoutPage.place_order()` (lines 132-163): guard on
`current_step == "paiement"`; click the order button, wait for navigation,
re-derive the step and report whether it is `"confirmation"`; any exception
is caught: error log, screenshot `place_order_error`, result `False`. -/
def placeOrderM (eng : Engine) (current_step : String) (s : St) :
    (Bool × String) × St :=
  let s := logInfo "Finalisation de la commande" s
  if current_step ≠ "paiement" then
    ((false, current_step),
     logWarn ("Étape actuelle (" ++ current_step ++ ") n'est pas 'paiement'") s)
  else
    match clickM eng SEL_place_order_button RETRY_COUNT s with
    | (Except.error e, s) =>
      let s := logErr ("Erreur lors de la finalisation de la commande: " ++ e.msg) s
      ((false, current_step), shoot "place_order_error" s)
    | (Except.ok _, s) =>
      let (_, s) := waitForNavigationM eng "networkidle" s
      let ns := determineCurrentStep s.url
      ((ns = "confirmation", ns), s)

/-- Leading digits of a char list (the matched extent of `re.search(r'\d+')`
once its start is found). -/
def takeDigits : List Char → List Char
  | [] => []
  | c :: cs => if c.isDigit then c :: takeDigits cs else []

/-- `re.search(r'\d+', text)`: the first maximal run of decimal digits. -/
def firstDigitRun : List Char → Option String
  | [] => none
  | c :: cs =>
    if c.isDigit then some (String.mk (c :: takeDigits cs))
    else firstDigitRun cs

/-- `CheckoutPage.get_order_number()` (lines 174-206): guard on
`current_step == "confirmation"`; if `.order-number` is visible, get its
text and return the first run of digits in it; otherwise (or when no digits
match) return the empty string. -/
def getOrderNumberM (eng : Engine) (current_step : String) (s : St) :
    String × St :=
  let s := logInfo "Récupération du numéro de commande" s
  if current_step ≠ "confirmation" then
    ("", logWarn ("Étape actuelle (" ++ current_step ++ ") n'est pas 'confirmation'") s)
  else
    match isVisibleM eng s with
    | (false, s) => ("", s)
    | (true, s) =>
      match getTextM eng ".order-number" "" s with
      | (Except.error _, s) => ("", s)
      | (Except.ok t, s) =>
        match firstDigitRun t.data with
        | some num => (num, s)
        | none => ("", s)

/-- An engine against which no locator ever resolves; everything else
succeeds. -/
def engNever : Engine :=
  { resolve := fun _ => false, act := fun _ => Except.ok (),
    nav := fun _ => true, newUrl := fun _ => "", vis := fun _ => true,
    text := fun _ => none, attr := fun _ => none, queryLen := 0, ts := "ts" }

/-- An engine against which every primitive succeeds. -/
def engOk : Engine :=
  { resolve := fun _ => true, act := fun _ => Except.ok (),
    nav := fun _ => true, newUrl := fun _ => "https://x/paiement",
    vis := fun _ => true, text := fun _ => some "Commande 123456",
    attr := fun _ => some "val", queryLen := 2, ts := "ts" }

/-- An engine whose navigation-level waits always time out. -/
def engNavDown : Engine :=
  { resolve := fun _ => true, act := fun _ => Except.ok (),
    nav := fun _ => false, newUrl := fun _ => "https://x/somewhere",
    vis := fun _ => true, text := fun _ => some "t", attr := fun _ => some "a",
    queryLen := 2, ts := "ts" }

/-- An engine whose elements resolve but whose text and attribute reads
come back empty / absent. -/
def engEmptyText : Engine :=
  { resolve := fun _ => true, act := fun _ => Except.ok (),
    nav := fun _ => true, newUrl := fun _ => "", vis := fun _ => true,
    text := fun _ => some "", attr := fun _ => none, queryLen := 0, ts := "ts" }

/-! Helper lemmas about the string primitives. -/

theorem startsWithL_append_self : ∀ (n t : List Char), startsWithL (n ++ t) n = true := by
  intro n
  induction n with
  | nil => intro t; simp [startsWithL]
  | cons c cs ih => intro t; simp [startsWithL, ih]

theorem startsWithL_self (l : List Char) : startsWithL l l = true := by
  have h := startsWithL_append_self l []
  simpa using h

theorem hasSubL_append_self : ∀ (pre n : List Char), hasSubL n (pre ++ n) = true := by
  intro pre
  induction pre with
  | nil =>
    intro n
    cases n with
    | nil => simp [hasSubL, startsWithL]
    | cons c cs => simp [hasSubL, startsWithL_self]
  | cons p ps ih =>
    intro n
    simp [hasSubL, ih]

theorem startsWithL_map_fixed (f : Char → Char) :
    ∀ (n l : List Char), (∀ c ∈ n, f c = c) → startsWithL l n = true →
      startsWithL (l.map f) n = true := by
  intro n
  induction n with
  | nil => intro l _ _; cases l <;> simp [startsWithL]
  | cons d ds ih =>
    intro l hfix h
    cases l with
    | nil => exact absurd h (by simp [startsWithL])
    | cons c cs =>
      simp only [startsWithL, Bool.and_eq_true, decide_eq_true_eq] at h
      obtain ⟨rfl, h2⟩ := h
      simp only [List.map_cons, startsWithL, Bool.and_eq_true, decide_eq_true_eq]
      constructor
      · exact hfix c (by simp)
      · exact ih cs (fun x hx => hfix x (by simp [hx])) h2

theorem hasSubL_map_fixed (f : Char → Char) (n : List Char)
    (hfix : ∀ c ∈ n, f c = c) :
    ∀ l : List Char, hasSubL n l = true → hasSubL n (l.map f) = true := by
  intro l
  induction l with
  | nil => intro h; exact h
  | cons c cs ih =>
    intro h
    simp only [hasSubL, Bool.or_eq_true] at h
    rcases h with h | h
    · simp only [List.map_cons, hasSubL, Bool.or_eq_true]
      exact Or.inl (startsWithL_map_fixed f n (c :: cs) hfix h)
    · simp only [List.map_cons, hasSubL, Bool.or_eq_true]
      exact Or.inr (ih h)

/-- Behaviour of the shared retry scaffold against a locator that never
resolves: `remaining` attempts all fail, each via one resolve invocation
producing one `element_not_found_…` artifact; the loop then takes the final
failure screenshot and raises the wrapping exception around the last
underlying error. -/
theorem attemptLoop_never_resolves (eng : Engine) (sel wp sp fm : String)
    (total : Nat) (h : ∀ k, eng.resolve k = false) :
    ∀ (r : Nat) (s : St),
      (attemptLoop eng sel wp sp fm total (r + 1) s).1 =
          Except.error (Exc.raised fm
            (Exc.raised ("Élément non trouvé: " ++ sel) Exc.pwTimeout))
        ∧ (attemptLoop eng sel wp sp fm total (r + 1) s).2.resolveCalls =
            s.resolveCalls + (r + 1)
        ∧ (attemptLoop eng sel wp sp fm total (r + 1) s).2.actCalls = s.actCalls
        ∧ (attemptLoop eng sel wp sp fm total (r + 1) s).2.artifacts =
            s.artifacts ++
              List.replicate (r + 1) ("element_not_found_" ++ pyReplaceColon sel)
              ++ [sp ++ pyReplaceColon sel] := by
  intro r
  induction r with
  | zero =>
    intro s
    simp [attemptLoop, resolveThenAct, waitForSelectorM, h, logDebug, logErr,
      logWarn, shoot]
  | succ n ih =>
    intro s
    rw [attemptLoop]
    simp [resolveThenAct, waitForSelectorM, h, logDebug, logErr, logWarn, shoot]
    refine ⟨(ih _).1, ?_, ?_, ?_⟩
    · rw [(ih _).2.1]; simp; omega
    · rw [(ih _).2.2.1]
    · rw [(ih _).2.2.2]
      simp [List.replicate_succ, List.append_assoc]

/-- C1 (counterexample): against a locator that never resolves and
`retry_count = 1`, one `click` call produces TWO diagnostic artifacts — one
taken inside `wait_for_selector` when the resolution times out and one
taken by `click` itself before raising — not exactly one as the claim
states. -/
theorem c1_retry_bound_counterexample :
    (clickM engNever "sel" 1 (St.init "")).2.artifacts =
        ["element_not_found_sel", "click_failed_sel"]
      ∧ ¬ (clickM engNever "sel" 1 (St.init "")).2.artifacts.length = 1 := by
  constructor
  · decide
  · decide

/-- C1 (amended): for every retry policy with `max_attempts = N ≥ 1` and a
locator that never resolves, each of `click`, `fill` and `select_option`
invokes the underlying resolve step exactly `N` times (and the element-level
action step zero times), then raises the generic wrapping exception
(`ActionFailed`) carrying the last underlying `ElementNotFound` error; over
the whole call exactly `N + 1` diagnostic artifacts are produced (one per
failed resolution inside `wait_for_selector`, plus the final
`…_failed_…` capture), not exactly one. -/
theorem c1_retry_bound_amended (eng : Engine) (sel value : String) (N : Nat)
    (s : St) (hN : 1 ≤ N) (h : ∀ k, eng.resolve k = false) :
    ((clickM eng sel N s).1 =
        Except.error (Exc.raised ("Impossible de cliquer sur l'élément: " ++
            sel ++ " après " ++ toString N ++ " tentatives")
          (Exc.raised ("Élément non trouvé: " ++ sel) Exc.pwTimeout))
      ∧ (clickM eng sel N s).2.resolveCalls = s.resolveCalls + N
      ∧ (clickM eng sel N s).2.actCalls = s.actCalls
      ∧ (clickM eng sel N s).2.artifacts.length = s.artifacts.length + (N + 1))
    ∧ ((fillM eng sel value N s).1 =
        Except.error (Exc.raised ("Impossible de remplir le champ: " ++
            sel ++ " après " ++ toString N ++ " tentatives")
          (Exc.raised ("Élément non trouvé: " ++ sel) Exc.pwTimeout))
      ∧ (fillM eng sel value N s).2.resolveCalls = s.resolveCalls + N
      ∧ (fillM eng sel value N s).2.actCalls = s.actCalls
      ∧ (fillM eng sel value N s).2.artifacts.length = s.artifacts.length + (N + 1))
    ∧ ((selectOptionM eng sel value N s).1 =
        Except.error (Exc.raised ("Impossible de sélectionner l'option dans: " ++
            sel ++ " après " ++ toString N ++ " tentatives")
          (Exc.raised ("Élément non trouvé: " ++ sel) Exc.pwTimeout))
      ∧ (selectOptionM eng sel value N s).2.resolveCalls = s.resolveCalls + N
      ∧ (selectOptionM eng sel value N s).2.actCalls = s.actCalls
      ∧ (selectOptionM eng sel value N s).2.artifacts.length =
          s.artifacts.length + (N + 1)) := by
  obtain ⟨m, rfl⟩ : ∃ m, N = m + 1 := ⟨N - 1, by omega⟩
  refine ⟨?_, ?_, ?_⟩
  · obtain ⟨h1, h2, h3, h4⟩ := attemptLoop_never_resolves eng sel
      "Échec du clic sur " "click_failed_"
      ("Impossible de cliquer sur l'élément: " ++ sel ++ " après " ++
        toString (m + 1) ++ " tentatives") (m + 1) h m
      (logDebug ("Clic sur l'élément: " ++ sel) s)
    refine ⟨?_, ?_, ?_, ?_⟩
    · simpa [clickM, logDebug] using h1
    · simp only [clickM]; rw [h2]; simp [logDebug]
    · simp only [clickM]; rw [h3]; simp [logDebug]
    · simp only [clickM]; rw [h4]; simp [logDebug]
  · obtain ⟨h1, h2, h3, h4⟩ := attemptLoop_never_resolves eng sel
      "Échec du remplissage de " "fill_failed_"
      ("Impossible de remplir le champ: " ++ sel ++ " après " ++
        toString (m + 1) ++ " tentatives") (m + 1) h m
      (logDebug (fillLogMsg sel value) s)
    refine ⟨?_, ?_, ?_, ?_⟩
    · simpa [fillM, logDebug] using h1
    · simp only [fillM]; rw [h2]; simp [logDebug]
    · simp only [fillM]; rw [h3]; simp [logDebug]
    · simp only [fillM]; rw [h4]; simp [logDebug]
  · obtain ⟨h1, h2, h3, h4⟩ := attemptLoop_never_resolves eng sel
      "Échec de la sélection dans " "select_failed_"
      ("Impossible de sélectionner l'option dans: " ++ sel ++ " après " ++
        toString (m + 1) ++ " tentatives") (m + 1) h m
      (logDebug ("Sélection de l'option " ++ value ++ " dans " ++ sel) s)
    refine ⟨?_, ?_, ?_, ?_⟩
    · simpa [selectOptionM, logDebug] using h1
    · simp only [selectOptionM]; rw [h2]; simp [logDebug]
    · simp only [selectOptionM]; rw [h3]; simp [logDebug]
    · simp only [selectOptionM]; rw [h4]; simp [logDebug]

/-- C1 (witness): the amended retry-bound theorem applied at a concrete
engine, selector and `N = 2`. -/
theorem c1_retry_bound_witness :
    ((clickM engNever "sel" 2 (St.init "")).1 =
        Except.error (Exc.raised ("Impossible de cliquer sur l'élément: " ++
            "sel" ++ " après " ++ toString 2 ++ " tentatives")
          (Exc.raised ("Élément non trouvé: " ++ "sel") Exc.pwTimeout))
      ∧ (clickM engNever "sel" 2 (St.init "")).2.resolveCalls =
          (St.init "").resolveCalls + 2
      ∧ (clickM engNever "sel" 2 (St.init "")).2.actCalls = (St.init "").actCalls
      ∧ (clickM engNever "sel" 2 (St.init "")).2.artifacts.length =
          (St.init "").artifacts.length + (2 + 1))
    ∧ ((fillM engNever "sel" "v" 2 (St.init "")).1 =
        Except.error (Exc.raised ("Impossible de remplir le champ: " ++
            "sel" ++ " après " ++ toString 2 ++ " tentatives")
          (Exc.raised ("Élément non trouvé: " ++ "sel") Exc.pwTimeout))
      ∧ (fillM engNever "sel" "v" 2 (St.init "")).2.resolveCalls =
          (St.init "").resolveCalls + 2
      ∧ (fillM engNever "sel" "v" 2 (St.init "")).2.actCalls =
          (St.init "").actCalls
      ∧ (fillM engNever "sel" "v" 2 (St.init "")).2.artifacts.length =
          (St.init "").artifacts.length + (2 + 1))
    ∧ ((selectOptionM engNever "sel" "v" 2 (St.init "")).1 =
        Except.error (Exc.raised ("Impossible de sélectionner l'option dans: " ++
            "sel" ++ " après " ++ toString 2 ++ " tentatives")
          (Exc.raised ("Élément non trouvé: " ++ "sel") Exc.pwTimeout))
      ∧ (selectOptionM engNever "sel" "v" 2 (St.init "")).2.resolveCalls =
          (St.init "").resolveCalls + 2
      ∧ (selectOptionM engNever "sel" "v" 2 (St.init "")).2.actCalls =
          (St.init "").actCalls
      ∧ (selectOptionM engNever "sel" "v" 2 (St.init "")).2.artifacts.length =
          (St.init "").artifacts.length + (2 + 1)) :=
  c1_retry_bound_amended engNever "sel" "v" 2 (St.init "") (by omega)
    (fun _ => rfl)

/-- Behaviour of the generic retry loop when every attempt in its window
fails: the outcome is exactly the last attempt's outcome, and no diagnostic
artifact is recorded. -/
theorem retryAux_allfail (op : Nat → Except Exc Unit) (fname : String)
    (total : Nat) :
    ∀ (r a : Nat) (last : Option Exc) (s : St),
      (∀ i, a ≤ i → i < a + (r + 1) → ∃ e, op i = Except.error e) →
      (retryAux op fname total (r + 1) a last s).1 = op (a + r)
      ∧ (retryAux op fname total (r + 1) a last s).2.artifacts = s.artifacts := by
  intro r
  induction r with
  | zero =>
    intro a last s hop
    obtain ⟨e, he⟩ := hop a (le_refl a) (by omega)
    simp [retryAux, he, logWarn, logErr]
  | succ n ih =>
    intro a last s hop
    obtain ⟨e, he⟩ := hop a (le_refl a) (by omega)
    rw [retryAux]
    simp only [he]
    have hop2 : ∀ i, a + 1 ≤ i → i < a + 1 + (n + 1) → ∃ e2, op i = Except.error e2 :=
      fun i h1 h2 => hop i (by omega) (by omega)
    constructor
    · rw [(ih (a + 1) (some e) _ hop2).1]
      congr 1
      omega
    · rw [(ih (a + 1) (some e) _ hop2).2]
      simp [logWarn]

/-- C2: for every operation and every `retry_count = N ≥ 1`, if all `N`
attempts raise, `retry_on_exception` re-raises exactly the exception
object of the final (N-th) attempt — its result is the last attempt's
outcome, with no wrapping exception — and no diagnostic screenshot is
captured. -/
theorem c2_retry_on_exception_reraises_last (op : Nat → Except Exc Unit)
    (fname : String) (N : Nat) (s : St) (hN : 1 ≤ N)
    (hfail : ∀ i, i < N → ∃ err, op i = Except.error err) :
    (retryOnExceptionM op fname N s).1 = op (N - 1)
    ∧ (retryOnExceptionM op fname N s).2.artifacts = s.artifacts := by
  obtain ⟨m, rfl⟩ : ∃ m, N = m + 1 := ⟨N - 1, by omega⟩
  have H := retryAux_allfail op fname (m + 1) m 0 none s
    (fun i h1 h2 => hfail i (by omega))
  refine ⟨?_, ?_⟩
  · rw [retryOnExceptionM, H.1]
    congr 1
    omega
  · rw [retryOnExceptionM, H.2]

/-- C2 (witness): three attempts, each raising a distinct exception: the
combinator's outcome is the third attempt's exception, and no artifact is
produced. -/
theorem c2_retry_on_exception_witness :
    (retryOnExceptionM (fun i => Except.error (Exc.engineErr i)) "f" 3
        (St.init "")).1 = Except.error (Exc.engineErr 2)
    ∧ (retryOnExceptionM (fun i => Except.error (Exc.engineErr i)) "f" 3
        (St.init "")).2.artifacts = (St.init "").artifacts :=
  c2_retry_on_exception_reraises_last (fun i => Except.error (Exc.engineErr i))
    "f" 3 (St.init "") (by omega) (fun i _ => ⟨Exc.engineErr i, rfl⟩)

/-- The polling loop returns `true` exactly when the predicate holds at
some index inside its fuel window. -/
theorem waitUntilAux_true_iff (cond : Nat → Bool) :
    ∀ (fuel k : Nat),
      (waitUntilAux cond fuel k).1 = true ↔
        ∃ j, j < fuel ∧ cond (k + j) = true := by
  intro fuel
  induction fuel with
  | zero => intro k; simp [waitUntilAux]
  | succ n ih =>
    intro k
    by_cases hc : cond k = true
    · simp only [waitUntilAux, hc, if_true]
      constructor
      · intro _
        exact ⟨0, Nat.succ_pos n, by simpa using hc⟩
      · intro _
        trivial
    · have hcf : cond k = false := by simpa using hc
      simp only [waitUntilAux, hcf, Bool.false_eq_true, if_false, ih (k + 1)]
      constructor
      · rintro ⟨j, hj, hcj⟩
        refine ⟨j + 1, by omega, ?_⟩
        rw [show k + (j + 1) = k + 1 + j by omega]
        exact hcj
      · rintro ⟨j, hj, hcj⟩
        cases j with
        | zero =>
          rw [Nat.add_zero] at hcj
          exact absurd hcj (by simp [hcf])
        | succ i =>
          refine ⟨i, by omega, ?_⟩
          rw [show k + 1 + i = k + (i + 1) by omega]
          exact hcj

/-- When the predicate first holds at the `j`-th evaluation (inside the
fuel window), the loop performs exactly `j + 1` evaluations: it stops at
the first true answer. -/
theorem waitUntilAux_evals (cond : Nat → Bool) :
    ∀ (fuel k j : Nat), j < fuel → cond (k + j) = true →
      (∀ i, i < j → cond (k + i) = false) →
      (waitUntilAux cond fuel k).2 = j + 1 := by
  intro fuel
  induction fuel with
  | zero => intro k j hj _ _; exact absurd hj (Nat.not_lt_zero j)
  | succ n ih =>
    intro k j hj hcj hmin
    by_cases hc : cond k = true
    · have hj0 : j = 0 := by
        by_contra hne
        have h0 := hmin 0 (Nat.pos_of_ne_zero hne)
        rw [Nat.add_zero] at h0
        rw [h0] at hc
        exact absurd hc (by simp)
      subst hj0
      simp [waitUntilAux, hc]
    · have hcf : cond k = false := by simpa using hc
      cases j with
      | zero =>
        rw [Nat.add_zero] at hcj
        rw [hcj] at hcf
        exact absurd hcf (by simp)
      | succ i =>
        have hrec := ih (k + 1) i (by omega)
          (by rw [show k + 1 + i = k + (i + 1) by omega]; exact hcj)
          (fun t ht => by
            rw [show k + 1 + t = k + (t + 1) by omega]
            exact hmin (t + 1) (by omega))
        simp [waitUntilAux, hcf, hrec]

/-- C3: `wait_until` returns `true` exactly when some evaluation of the
predicate inside the timeout window yields `true`, and in that case it
stops at the first such evaluation (no further evaluation or waiting
afterwards); when the timeout elapses with no true evaluation it returns
`false`; in both cases the result is a normal boolean return (never an
exception) and no screenshot is captured.  Every check happens strictly
before the deadline and the checks cover the whole timeout window (the
timing conjuncts, which need `0 < interval`). -/
theorem c3_wait_until_poller (cond : Nat → Bool) (timeout interval : Nat)
    (s : St) (hpos : 0 < interval) :
    ((waitUntilM cond timeout interval s).1 = Except.ok true ↔
        ∃ j, j < numChecks timeout interval ∧ cond j = true)
    ∧ ((waitUntilM cond timeout interval s).1 = Except.ok false ↔
        ∀ j, j < numChecks timeout interval → cond j = false)
    ∧ (∀ j, j < numChecks timeout interval → cond j = true →
        (∀ i, i < j → cond i = false) →
        (waitUntilAux cond (numChecks timeout interval) 0).2 = j + 1)
    ∧ (∀ j, j < numChecks timeout interval → j * interval < timeout)
    ∧ timeout ≤ numChecks timeout interval * interval
    ∧ (waitUntilM cond timeout interval s).2.artifacts = s.artifacts
    ∧ (∃ b, (waitUntilM cond timeout interval s).1 = Except.ok b) := by
  have Hiff := waitUntilAux_true_iff cond (numChecks timeout interval) 0
  refine ⟨?_, ?_, ?_, ?_, ?_, ?_, ?_⟩
  · by_cases hr : (waitUntilAux cond (numChecks timeout interval) 0).1 = true
    · simp only [waitUntilM, hr, if_true]
      obtain ⟨j, hj, hcj⟩ := Hiff.mp hr
      constructor
      · intro _
        exact ⟨j, hj, by simpa using hcj⟩
      · intro _
        trivial
    · have hrf : (waitUntilAux cond (numChecks timeout interval) 0).1 = false := by
        simpa using hr
      simp only [waitUntilM, hrf, Bool.false_eq_true, if_false]
      constructor
      · intro hcontra
        exact absurd hcontra (by simp)
      · rintro ⟨j, hj, hcj⟩
        exact absurd (Hiff.mpr ⟨j, hj, by simpa using hcj⟩) hr
  · by_cases hr : (waitUntilAux cond (numChecks timeout interval) 0).1 = true
    · simp only [waitUntilM, hr, if_true]
      constructor
      · intro hcontra
        exact absurd hcontra (by simp)
      · intro hall
        obtain ⟨j, hj, hcj⟩ := Hiff.mp hr
        rw [Nat.zero_add] at hcj
        rw [hall j hj] at hcj
        exact absurd hcj (by simp)
    · have hrf : (waitUntilAux cond (numChecks timeout interval) 0).1 = false := by
        simpa using hr
      simp only [waitUntilM, hrf, Bool.false_eq_true, if_false]
      constructor
      · intro _ j hj
        by_contra hne
        have hcj : cond j = true := by
          cases hcb : cond j with
          | false => exact absurd hcb hne
          | true => rfl
        exact absurd (Hiff.mpr ⟨j, hj, by simpa using hcj⟩) hr
      · intro _
        trivial
  · intro j hj hcj hmin
    exact waitUntilAux_evals cond (numChecks timeout interval) 0 j hj
      (by simpa using hcj) (fun i hi => by simpa using hmin i hi)
  · intro j hj
    have h1 : j + 1 ≤ (timeout + interval - 1) / interval := hj
    have h2 : (j + 1) * interval ≤ timeout + interval - 1 :=
      (Nat.le_div_iff_mul_le hpos).mp h1
    have h3 : j * interval + interval ≤ timeout + interval - 1 := by
      rw [Nat.succ_mul] at h2
      exact h2
    omega
  · have hdm := Nat.div_add_mod' (timeout + interval - 1) interval
    have hmod : (timeout + interval - 1) % interval < interval :=
      Nat.mod_lt _ hpos
    unfold numChecks
    omega
  · by_cases hr : (waitUntilAux cond (numChecks timeout interval) 0).1 = true
    · simp [waitUntilM, hr, logDebug, logWarn]
    · have hrf : (waitUntilAux cond (numChecks timeout interval) 0).1 = false := by
        simpa using hr
      simp [waitUntilM, hrf, logDebug, logWarn]
  · by_cases hr : (waitUntilAux cond (numChecks timeout interval) 0).1 = true
    · exact ⟨true, by simp [waitUntilM, hr]⟩
    · have hrf : (waitUntilAux cond (numChecks timeout interval) 0).1 = false := by
        simpa using hr
      exact ⟨false, by simp [waitUntilM, hrf]⟩

/-- C3 (witness): a predicate that becomes true on its third evaluation,
`timeout = 5000` ms, `interval = 1000` ms. -/
theorem c3_wait_until_witness :
    ((waitUntilM (fun k => decide (k = 2)) 5000 1000 (St.init "")).1 =
          Except.ok true ↔
        ∃ j, j < numChecks 5000 1000 ∧ (fun k => decide (k = 2)) j = true)
    ∧ ((waitUntilM (fun k => decide (k = 2)) 5000 1000 (St.init "")).1 =
          Except.ok false ↔
        ∀ j, j < numChecks 5000 1000 → (fun k => decide (k = 2)) j = false)
    ∧ (∀ j, j < numChecks 5000 1000 → (fun k => decide (k = 2)) j = true →
        (∀ i, i < j → (fun k => decide (k = 2)) i = false) →
        (waitUntilAux (fun k => decide (k = 2)) (numChecks 5000 1000) 0).2 = j + 1)
    ∧ (∀ j, j < numChecks 5000 1000 → j * 1000 < 5000)
    ∧ 5000 ≤ numChecks 5000 1000 * 1000
    ∧ (waitUntilM (fun k => decide (k = 2)) 5000 1000 (St.init "")).2.artifacts =
        (St.init "").artifacts
    ∧ (∃ b, (waitUntilM (fun k => decide (k = 2)) 5000 1000 (St.init "")).1 =
        Except.ok b) :=
  c3_wait_until_poller (fun k => decide (k = 2)) 5000 1000 (St.init "")
    (by omega)

/-- C4: when the underlying engine's navigation or load-state wait times
out, each of `navigate`, `wait_for_navigation` and `wait_for_url` logs
exactly one warning, records exactly one diagnostic artifact, and returns
normally (an `ok` result, no exception raised to the caller). -/
theorem c4_navigation_timeout_advisory (eng : Engine) (base_url url pat evt : String)
    (s : St) (h : eng.nav s.navCalls = false) :
    ((navigateM eng base_url url s).1 = Except.ok ()
      ∧ (navigateM eng base_url url s).2.warns.length = s.warns.length + 1
      ∧ (navigateM eng base_url url s).2.artifacts =
          s.artifacts ++ ["navigation_timeout_" ++ eng.ts])
    ∧ ((waitForNavigationM eng evt s).1 = Except.ok ()
      ∧ (waitForNavigationM eng evt s).2.warns.length = s.warns.length + 1
      ∧ (waitForNavigationM eng evt s).2.artifacts =
          s.artifacts ++ ["navigation_wait_timeout_" ++ eng.ts])
    ∧ ((waitForUrlM eng pat s).1 = Except.ok ()
      ∧ (waitForUrlM eng pat s).2.warns.length = s.warns.length + 1
      ∧ (waitForUrlM eng pat s).2.artifacts =
          s.artifacts ++ ["url_wait_timeout_" ++ eng.ts]) := by
  refine ⟨⟨?_, ?_, ?_⟩, ⟨?_, ?_, ?_⟩, ⟨?_, ?_, ?_⟩⟩ <;>
    simp [navigateM, waitForNavigationM, waitForUrlM, h, logInfo, logDebug,
      logWarn, shoot]

/-- C4 (witness): a concrete engine whose navigation waits always time
out. -/
theorem c4_navigation_timeout_witness :
    ((navigateM engNavDown "https://b" "/u" (St.init "x")).1 = Except.ok ()
      ∧ (navigateM engNavDown "https://b" "/u" (St.init "x")).2.warns.length =
          (St.init "x").warns.length + 1
      ∧ (navigateM engNavDown "https://b" "/u" (St.init "x")).2.artifacts =
          (St.init "x").artifacts ++ ["navigation_timeout_" ++ engNavDown.ts])
    ∧ ((waitForNavigationM engNavDown "networkidle" (St.init "x")).1 = Except.ok ()
      ∧ (waitForNavigationM engNavDown "networkidle" (St.init "x")).2.warns.length =
          (St.init "x").warns.length + 1
      ∧ (waitForNavigationM engNavDown "networkidle" (St.init "x")).2.artifacts =
          (St.init "x").artifacts ++ ["navigation_wait_timeout_" ++ engNavDown.ts])
    ∧ ((waitForUrlM engNavDown "pat" (St.init "x")).1 = Except.ok ()
      ∧ (waitForUrlM engNavDown "pat" (St.init "x")).2.warns.length =
          (St.init "x").warns.length + 1
      ∧ (waitForUrlM engNavDown "pat" (St.init "x")).2.artifacts =
          (St.init "x").artifacts ++ ["url_wait_timeout_" ++ engNavDown.ts]) :=
  c4_navigation_timeout_advisory engNavDown "https://b" "/u" "pat" "networkidle"
    (St.init "x") rfl

/-- A string occurs in any string it is appended to. -/
theorem pyIn_append_self (pre n : String) : pyIn n (pre ++ n) = true := by
  have hdata : (pre ++ n).data = pre.data ++ n.data := rfl
  rw [pyIn, hdata]
  exact hasSubL_append_self pre.data n.data

/-- C5 (counterexample): for the locator `"a:b"`, the timeout capture's
label is `element_not_found_a_b` (the `:` is replaced by `_` when the label
is formed), so the label does not include the locator itself, contrary to
the claim. -/
theorem c5_element_wait_counterexample :
    (waitForSelectorM engNever "a:b" (St.init "")).2.artifacts =
        ["element_not_found_a_b"]
      ∧ pyIn "a:b" "element_not_found_a_b" = false
      ∧ (waitForSelectorM engNever "a:b" (St.init "")).1 =
          Except.error (Exc.raised ("Élément non trouvé: " ++ "a:b") Exc.pwTimeout) := by
  refine ⟨by decide, by decide, rfl⟩

/-- C5 (amended): if the element wait times out, `wait_for_selector`
records exactly one diagnostic artifact, whose label includes the locator
with each `:` replaced by `_` (not necessarily the literal locator), and
raises the `ElementNotFound` failure to the caller; on success the handle
is returned with no capture. -/
theorem c5_element_wait_amended (eng : Engine) (sel : String) (s : St) :
    (eng.resolve s.resolveCalls = false →
      (waitForSelectorM eng sel s).1 =
          Except.error (Exc.raised ("Élément non trouvé: " ++ sel) Exc.pwTimeout)
      ∧ (waitForSelectorM eng sel s).2.artifacts =
          s.artifacts ++ ["element_not_found_" ++ pyReplaceColon sel]
      ∧ pyIn (pyReplaceColon sel)
          ("element_not_found_" ++ pyReplaceColon sel) = true)
    ∧ (eng.resolve s.resolveCalls = true →
      (waitForSelectorM eng sel s).1 = Except.ok ()
      ∧ (waitForSelectorM eng sel s).2.artifacts = s.artifacts) := by
  constructor
  · intro h
    refine ⟨?_, ?_, pyIn_append_self "element_not_found_" (pyReplaceColon sel)⟩ <;>
      simp [waitForSelectorM, h, logDebug, logErr, shoot]
  · intro h
    constructor <;> simp [waitForSelectorM, h, logDebug]

/-- C5 (witness): both branches of the amended element-wait theorem at a
concrete locator. -/
theorem c5_element_wait_witness :
    ((waitForSelectorM engNever "x" (St.init "")).1 =
          Except.error (Exc.raised ("Élément non trouvé: " ++ "x") Exc.pwTimeout)
      ∧ (waitForSelectorM engNever "x" (St.init "")).2.artifacts =
          (St.init "").artifacts ++ ["element_not_found_" ++ pyReplaceColon "x"]
      ∧ pyIn (pyReplaceColon "x")
          ("element_not_found_" ++ pyReplaceColon "x") = true)
    ∧ ((waitForSelectorM engOk "x" (St.init "")).1 = Except.ok ()
      ∧ (waitForSelectorM engOk "x" (St.init "")).2.artifacts =
          (St.init "").artifacts) :=
  ⟨(c5_element_wait_amended engNever "x" (St.init "")).1 rfl,
   (c5_element_wait_amended engOk "x" (St.init "")).2 rfl⟩

/-- C6 (counterexample): `fill("password", "password")` masks the value,
yet the literal value still appears in the logged message, because the
locator text itself is logged and equals the value; moreover the locator
`"PASSWORD"` does not contain `"password"` yet its value is masked, not
logged literally (the code's check is on the lowercased locator). -/
theorem c6_secret_masking_counterexample :
    pyIn "password" "password" = true
    ∧ pyIn "password" (fillLogMsg "password" "password") = true
    ∧ pyIn "password" "PASSWORD" = false
    ∧ maskedValue "PASSWORD" "x" = "*"
    ∧ ¬ maskedValue "PASSWORD" "x" = "x" := by
  refine ⟨by decide, by decide, by decide, by decide, by decide⟩

/-- C6 (amended): a locator indicates a secret iff its lowercasing contains
`password`.  For such locators the value logged by `fill` is a mask of
exactly `len(v)` mask characters `'*'`, and the logged message reveals
nothing about the value beyond its length (equal-length values produce
identical messages); the literal value can occur in the message only
through the locator or the fixed text, never through the value position.
For locators not indicating a secret the literal value is logged.
Locators containing the literal `password` always indicate a secret. -/
theorem c6_secret_masking_amended (sel v w : String) :
    (pyIn "password" (pyLower sel) = true →
      maskedValue sel v = String.mk (List.replicate v.length '*')
      ∧ (maskedValue sel v).length = v.length
      ∧ (∀ c ∈ (maskedValue sel v).data, c = '*')
      ∧ (v.length = w.length → fillLogMsg sel v = fillLogMsg sel w))
    ∧ (pyIn "password" (pyLower sel) = false →
      maskedValue sel v = v
      ∧ fillLogMsg sel v =
          "Remplissage du champ " ++ sel ++ " avec la valeur: " ++ v)
    ∧ (pyIn "password" sel = true → pyIn "password" (pyLower sel) = true) := by
  refine ⟨?_, ?_, ?_⟩
  · intro h
    refine ⟨?_, ?_, ?_, ?_⟩
    · simp [maskedValue, h]
    · have h1 : maskedValue sel v = String.mk (List.replicate v.length '*') := by
        simp [maskedValue, h]
      rw [h1, String.length_mk, List.length_replicate]
    · intro c hc
      simp only [maskedValue, h, if_true] at hc
      exact List.eq_of_mem_replicate hc
    · intro hlen
      simp [fillLogMsg, maskedValue, h, hlen]
  · intro h
    constructor <;> simp [maskedValue, fillLogMsg, h]
  · intro h
    have hfix : ∀ c ∈ ("password" : String).data, pyLowerChar c = c := by decide
    exact hasSubL_map_fixed pyLowerChar ("password" : String).data hfix sel.data h

/-- C6 (witness): the masking branch at the repository's password selector
with a 9-character secret, and the literal branch at a non-secret
selector. -/
theorem c6_secret_masking_witness :
    (maskedValue "#login-password-input" "secret123" =
        String.mk (List.replicate ("secret123" : String).length '*')
      ∧ (maskedValue "#login-password-input" "secret123").length =
          ("secret123" : String).length
      ∧ (∀ c ∈ (maskedValue "#login-password-input" "secret123").data, c = '*')
      ∧ (("secret123" : String).length = ("ABCDEFGHI" : String).length →
          fillLogMsg "#login-password-input" "secret123" =
            fillLogMsg "#login-password-input" "ABCDEFGHI"))
    ∧ (maskedValue "#user" "secret123" = "secret123"
      ∧ fillLogMsg "#user" "secret123" =
          "Remplissage du champ " ++ "#user" ++ " avec la valeur: " ++ "secret123") :=
  ⟨(c6_secret_masking_amended "#login-password-input" "secret123" "ABCDEFGHI").1
      (by decide),
   (c6_secret_masking_amended "#user" "secret123" "ABCDEFGHI").2.1 (by decide)⟩

/-- C7: each state-gated checkout action, invoked while the current step
differs from its required step, logs one warning and returns its failure
result (`False`, or `""` for `get_order_number`) having performed zero
calls to the underlying browser primitives (no resolution, no element
action, no navigation wait, no visibility query) and produced no
diagnostic artifact. -/
theorem c7_state_guard (eng : Engine) (cs : String) (idx : Nat)
    (co cn ed sc : String) (s : St) :
    (cs ≠ "livraison" →
      (selectDeliveryOptionM eng cs idx s).1 = (false, cs)
      ∧ (selectDeliveryOptionM eng cs idx s).2.resolveCalls = s.resolveCalls
      ∧ (selectDeliveryOptionM eng cs idx s).2.actCalls = s.actCalls
      ∧ (selectDeliveryOptionM eng cs idx s).2.navCalls = s.navCalls
      ∧ (selectDeliveryOptionM eng cs idx s).2.visCalls = s.visCalls
      ∧ (selectDeliveryOptionM eng cs idx s).2.artifacts = s.artifacts
      ∧ (selectDeliveryOptionM eng cs idx s).2.warns.length = s.warns.length + 1)
    ∧ (cs ≠ "paiement" →
      (fillPaymentInfoM eng cs co cn ed sc s).1 = (false, cs)
      ∧ (fillPaymentInfoM eng cs co cn ed sc s).2.resolveCalls = s.resolveCalls
      ∧ (fillPaymentInfoM eng cs co cn ed sc s).2.actCalls = s.actCalls
      ∧ (fillPaymentInfoM eng cs co cn ed sc s).2.navCalls = s.navCalls
      ∧ (fillPaymentInfoM eng cs co cn ed sc s).2.visCalls = s.visCalls
      ∧ (fillPaymentInfoM eng cs co cn ed sc s).2.artifacts = s.artifacts
      ∧ (fillPaymentInfoM eng cs co cn ed sc s).2.warns.length = s.warns.length + 1)
    ∧ (cs ≠ "paiement" →
      (placeOrderM eng cs s).1 = (false, cs)
      ∧ (placeOrderM eng cs s).2.resolveCalls = s.resolveCalls
      ∧ (placeOrderM eng cs s).2.actCalls = s.actCalls
      ∧ (placeOrderM eng cs s).2.navCalls = s.navCalls
      ∧ (placeOrderM eng cs s).2.visCalls = s.visCalls
      ∧ (placeOrderM eng cs s).2.artifacts = s.artifacts
      ∧ (placeOrderM eng cs s).2.warns.length = s.warns.length + 1)
    ∧ (cs ≠ "confirmation" →
      (getOrderNumberM eng cs s).1 = ""
      ∧ (getOrderNumberM eng cs s).2.resolveCalls = s.resolveCalls
      ∧ (getOrderNumberM eng cs s).2.actCalls = s.actCalls
      ∧ (getOrderNumberM eng cs s).2.navCalls = s.navCalls
      ∧ (getOrderNumberM eng cs s).2.visCalls = s.visCalls
      ∧ (getOrderNumberM eng cs s).2.artifacts = s.artifacts
      ∧ (getOrderNumberM eng cs s).2.warns.length = s.warns.length + 1) := by
  refine ⟨?_, ?_, ?_, ?_⟩ <;> intro h <;>
    simp [selectDeliveryOptionM, fillPaymentInfoM, placeOrderM, getOrderNumberM,
      h, logInfo, logWarn]

/-- C7 (witness): every gated action invoked from the `identification`
step fails at the guard with no primitive call. -/
theorem c7_state_guard_witness :
    ((selectDeliveryOptionM engOk "identification" 0 (St.init "u")).1 =
        (false, "identification")
      ∧ (selectDeliveryOptionM engOk "identification" 0 (St.init "u")).2.resolveCalls =
          (St.init "u").resolveCalls
      ∧ (selectDeliveryOptionM engOk "identification" 0 (St.init "u")).2.actCalls =
          (St.init "u").actCalls
      ∧ (selectDeliveryOptionM engOk "identification" 0 (St.init "u")).2.navCalls =
          (St.init "u").navCalls
      ∧ (selectDeliveryOptionM engOk "identification" 0 (St.init "u")).2.visCalls =
          (St.init "u").visCalls
      ∧ (selectDeliveryOptionM engOk "identification" 0 (St.init "u")).2.artifacts =
          (St.init "u").artifacts
      ∧ (selectDeliveryOptionM engOk "identification" 0 (St.init "u")).2.warns.length =
          (St.init "u").warns.length + 1)
    ∧ ((fillPaymentInfoM engOk "identification" "a" "b" "c" "d" (St.init "u")).1 =
        (false, "identification")
      ∧ (fillPaymentInfoM engOk "identification" "a" "b" "c" "d" (St.init "u")).2.resolveCalls =
          (St.init "u").resolveCalls
      ∧ (fillPaymentInfoM engOk "identification" "a" "b" "c" "d" (St.init "u")).2.actCalls =
          (St.init "u").actCalls
      ∧ (fillPaymentInfoM engOk "identification" "a" "b" "c" "d" (St.init "u")).2.navCalls =
          (St.init "u").navCalls
      ∧ (fillPaymentInfoM engOk "identification" "a" "b" "c" "d" (St.init "u")).2.visCalls =
          (St.init "u").visCalls
      ∧ (fillPaymentInfoM engOk "identification" "a" "b" "c" "d" (St.init "u")).2.artifacts =
          (St.init "u").artifacts
      ∧ (fillPaymentInfoM engOk "identification" "a" "b" "c" "d" (St.init "u")).2.warns.length =
          (St.init "u").warns.length + 1)
    ∧ ((placeOrderM engOk "identification" (St.init "u")).1 = (false, "identification")
      ∧ (placeOrderM engOk "identification" (St.init "u")).2.resolveCalls =
          (St.init "u").resolveCalls
      ∧ (placeOrderM engOk "identification" (St.init "u")).2.actCalls =
          (St.init "u").actCalls
      ∧ (placeOrderM engOk "identification" (St.init "u")).2.navCalls =
          (St.init "u").navCalls
      ∧ (placeOrderM engOk "identification" (St.init "u")).2.visCalls =
          (St.init "u").visCalls
      ∧ (placeOrderM engOk "identification" (St.init "u")).2.artifacts =
          (St.init "u").artifacts
      ∧ (placeOrderM engOk "identification" (St.init "u")).2.warns.length =
          (St.init "u").warns.length + 1)
    ∧ ((getOrderNumberM engOk "identification" (St.init "u")).1 = ""
      ∧ (getOrderNumberM engOk "identification" (St.init "u")).2.resolveCalls =
          (St.init "u").resolveCalls
      ∧ (getOrderNumberM engOk "identification" (St.init "u")).2.actCalls =
          (St.init "u").actCalls
      ∧ (getOrderNumberM engOk "identification" (St.init "u")).2.navCalls =
          (St.init "u").navCalls
      ∧ (getOrderNumberM engOk "identification" (St.init "u")).2.visCalls =
          (St.init "u").visCalls
      ∧ (getOrderNumberM engOk "identification" (St.init "u")).2.artifacts =
          (St.init "u").artifacts
      ∧ (getOrderNumberM engOk "identification" (St.init "u")).2.warns.length =
          (St.init "u").warns.length + 1) :=
  ⟨(c7_state_guard engOk "identification" 0 "a" "b" "c" "d" (St.init "u")).1
      (by decide),
   (c7_state_guard engOk "identification" 0 "a" "b" "c" "d" (St.init "u")).2.1
      (by decide),
   (c7_state_guard engOk "identification" 0 "a" "b" "c" "d" (St.init "u")).2.2.1
      (by decide),
   (c7_state_guard engOk "identification" 0 "a" "b" "c" "d" (St.init "u")).2.2.2
      (by decide)⟩

/-- C8: the step classifier returns the first state fragment, in the fixed
order identification, livraison, paiement, confirmation, occurring in the
location, and returns `unknown` exactly when none occurs; a location
containing the fragments of several states is classified by the earliest
one in the order. -/
theorem c8_step_classifier (url : String) :
    determineCurrentStep url = firstMatchingStep stepFragments url
    ∧ (determineCurrentStep url = "unknown" ↔
        ∀ f ∈ stepFragments, pyIn f url = false) := by
  by_cases h1 : pyIn "identification" url = true <;>
    by_cases h2 : pyIn "livraison" url = true <;>
      by_cases h3 : pyIn "paiement" url = true <;>
        by_cases h4 : pyIn "confirmation" url = true <;>
          simp [determineCurrentStep, firstMatchingStep, stepFragments,
            h1, h2, h3, h4]

/-- C9 (counterexample): when the underlying screenshot primitive fails,
`take_screenshot` raises to its caller (the method body has no exception
handler), contrary to the claim that capture failure is only logged. -/
theorem c9_capture_failure_counterexample :
    (takeScreenshotM false "ts" (some "label") (St.init "")).1 =
        Except.error Exc.screenshotErr
    ∧ (takeScreenshotM false "ts" (some "label") (St.init "")).2.artifacts = [] :=
  ⟨rfl, rfl⟩

/-- C9 (amended): `take_screenshot` has no internal exception handling: a
failure of the underlying screenshot primitive propagates to the caller
and records no artifact (so a capture failure on a failure path can
replace the original failure being recorded); on primitive success the
artifact path is returned and exactly one artifact recorded. -/
theorem c9_capture_failure_amended (ts : String) (name : Option String) (s : St) :
    ((takeScreenshotM false ts name s).1 = Except.error Exc.screenshotErr
      ∧ (takeScreenshotM false ts name s).2.artifacts = s.artifacts)
    ∧ ((takeScreenshotM true ts name s).1 =
        Except.ok ("SCREENSHOTS_DIR/" ++
          (name.getD ("screenshot_" ++ ts) ++ "_" ++ ts ++ ".png"))
      ∧ (takeScreenshotM true ts name s).2.artifacts =
          s.artifacts ++ [name.getD ("screenshot_" ++ ts)]) := by
  cases name <;> simp [takeScreenshotM, logInfo, Option.getD]

/-- C10: `get_text` and `get_attribute` always return normally: the default
when the element does not resolve or the text / attribute is absent or
empty, and the element's text / attribute value otherwise. -/
theorem c10_getters_never_raise (eng : Engine) (sel attrName dflt : String)
    (s : St) :
    ((∃ r, (getTextM eng sel dflt s).1 = Except.ok r)
      ∧ (eng.resolve s.resolveCalls = false →
          (getTextM eng sel dflt s).1 = Except.ok dflt)
      ∧ (eng.resolve s.resolveCalls = true → eng.text s.actCalls = none →
          (getTextM eng sel dflt s).1 = Except.ok dflt)
      ∧ (eng.resolve s.resolveCalls = true → eng.text s.actCalls = some "" →
          (getTextM eng sel dflt s).1 = Except.ok dflt)
      ∧ (∀ t, eng.resolve s.resolveCalls = true → eng.text s.actCalls = some t →
          ¬ t = "" → (getTextM eng sel dflt s).1 = Except.ok t))
    ∧ ((∃ r, (getAttributeM eng sel attrName dflt s).1 = Except.ok r)
      ∧ (eng.resolve s.resolveCalls = false →
          (getAttributeM eng sel attrName dflt s).1 = Except.ok dflt)
      ∧ (eng.resolve s.resolveCalls = true → eng.attr s.actCalls = none →
          (getAttributeM eng sel attrName dflt s).1 = Except.ok dflt)
      ∧ (eng.resolve s.resolveCalls = true → eng.attr s.actCalls = some "" →
          (getAttributeM eng sel attrName dflt s).1 = Except.ok dflt)
      ∧ (∀ v, eng.resolve s.resolveCalls = true → eng.attr s.actCalls = some v →
          ¬ v = "" → (getAttributeM eng sel attrName dflt s).1 = Except.ok v)) := by
  refine ⟨⟨?_, ?_, ?_, ?_, ?_⟩, ⟨?_, ?_, ?_, ?_, ?_⟩⟩
  · by_cases hres : eng.resolve s.resolveCalls = true
    · rcases htext : eng.text s.actCalls with _ | t
      · exact ⟨dflt, by simp [getTextM, waitForSelectorM, hres, htext, logDebug]⟩
      · by_cases ht : t = ""
        · exact ⟨dflt, by simp [getTextM, waitForSelectorM, hres, htext, ht, logDebug]⟩
        · exact ⟨t, by simp [getTextM, waitForSelectorM, hres, htext, ht, logDebug]⟩
    · have hres2 : eng.resolve s.resolveCalls = false := by simpa using hres
      exact ⟨dflt, by
        simp [getTextM, waitForSelectorM, hres2, logDebug, logErr, logWarn, shoot]⟩
  · intro h
    simp [getTextM, waitForSelectorM, h, logDebug, logErr, logWarn, shoot]
  · intro h ht
    simp [getTextM, waitForSelectorM, h, ht, logDebug]
  · intro h ht
    simp [getTextM, waitForSelectorM, h, ht, logDebug]
  · intro t h ht hne
    simp [getTextM, waitForSelectorM, h, ht, hne, logDebug]
  · by_cases hres : eng.resolve s.resolveCalls = true
    · rcases hattr : eng.attr s.actCalls with _ | v
      · exact ⟨dflt, by simp [getAttributeM, waitForSelectorM, hres, hattr, logDebug]⟩
      · by_cases hv : v = ""
        · exact ⟨dflt, by simp [getAttributeM, waitForSelectorM, hres, hattr, hv, logDebug]⟩
        · exact ⟨v, by simp [getAttributeM, waitForSelectorM, hres, hattr, hv, logDebug]⟩
    · have hres2 : eng.resolve s.resolveCalls = false := by simpa using hres
      exact ⟨dflt, by
        simp [getAttributeM, waitForSelectorM, hres2, logDebug, logErr, logWarn, shoot]⟩
  · intro h
    simp [getAttributeM, waitForSelectorM, h, logDebug, logErr, logWarn, shoot]
  · intro h ha
    simp [getAttributeM, waitForSelectorM, h, ha, logDebug]
  · intro h ha
    simp [getAttributeM, waitForSelectorM, h, ha, logDebug]
  · intro v h ha hne
    simp [getAttributeM, waitForSelectorM, h, ha, hne, logDebug]

/-- C10 (witness): concrete getter runs — a never-resolving engine yields
the default, an empty text yields the default, a present text is
returned. -/
theorem c10_getters_witness :
    (getTextM engNever "x" "deft" (St.init "")).1 = Except.ok "deft"
    ∧ (getTextM engEmptyText "x" "deft" (St.init "")).1 = Except.ok "deft"
    ∧ (getTextM engOk "x" "deft" (St.init "")).1 = Except.ok "Commande 123456"
    ∧ (getAttributeM engEmptyText "x" "href" "defa" (St.init "")).1 =
        Except.ok "defa"
    ∧ (getAttributeM engOk "x" "href" "defa" (St.init "")).1 = Except.ok "val" :=
  ⟨(c10_getters_never_raise engNever "x" "href" "deft" (St.init "")).1.2.1 rfl,
   (c10_getters_never_raise engEmptyText "x" "href" "deft" (St.init "")).1.2.2.2.1
     rfl rfl,
   ((c10_getters_never_raise engOk "x" "href" "deft" (St.init "")).1.2.2.2.2
     "Commande 123456" rfl rfl (by decide)),
   (c10_getters_never_raise engEmptyText "x" "href" "defa" (St.init "")).2.2.2.1
     rfl rfl,
   ((c10_getters_never_raise engOk "x" "href" "defa" (St.init "")).2.2.2.2.2
     "val" rfl rfl (by decide))⟩
